import Mathlib

/-!
Verification of the networthlab financial projection engine.

Shallow embedding of `src/networthlab` (services/calculations.py,
services/lunch_money.py, models/projections.py, models/accounts.py,
models/settings.py) in Lean 4.

Modelling conventions:
* Python `Decimal` values are modelled as exact rationals (`ℚ`).  Python's
  default `Decimal` context rounds each operation to 28 significant digits;
  every comparison and equation settled below is insensitive to that rounding
  (where a concrete value is exhibited, its significand is far shorter than
  28 digits, or the statement only brackets the value, as noted in place).
* Python `float` parameters are modelled as rationals.  Every IEEE-754
  binary64 value is an exact rational, so a rational faithfully carries the
  value a float argument actually holds; where the binary representation of a
  decimal literal matters (claim about exactness of `0.07`), the embedding
  uses the exact rational value of the nearest binary64 double.
* `date.today()` is ambient state in the source; the embedding passes the
  current calendar year (`todayYear : Int`) or the current day number
  (`today : Int`, days since an arbitrary epoch) explicitly.  `timedelta`
  arithmetic on dates becomes integer day arithmetic.
* The bounded `for`/`while` loops of the source (FIRE search capped at
  `max_years`, amortization capped at 360 months) are embedded as structural
  recursion on the remaining iteration count, which mirrors the loop bound
  exactly.
* Python `//` and `%` on ints are floor division and nonnegative-for-positive-
  modulus remainder; they are modelled by `Int.fdiv` and `Int.fmod`.
-/

namespace NetWorthLab

/-- `FinancialSnapshot` from models/projections.py: point-in-time rollup of
account totals and monthly cash-flow averages.  `snapshot_date` is a day
number. -/
structure FinancialSnapshot where
  snapshot_date : Int
  net_worth : ℚ
  total_assets : ℚ
  total_liabilities : ℚ
  investments : ℚ := 0
  cash : ℚ := 0
  real_estate : ℚ := 0
  crypto : ℚ := 0
  other_assets : ℚ := 0
  loans : ℚ := 0
  credit : ℚ := 0
  other_liabilities : ℚ := 0
  monthly_income : ℚ := 0
  monthly_expenses : ℚ := 0
  monthly_savings : ℚ := 0

/-- `Projection` from models/projections.py: a single projected year. -/
structure Projection where
  year : Int
  net_worth : ℚ
  investments : ℚ
  loan_balance : ℚ
  fire_progress : ℚ

/-- `FIREResult` from models/projections.py. -/
structure FIREResult where
  fire_number : ℚ
  current_investments : ℚ
  annual_expenses : ℚ
  years_to_fire : Int
  fire_year : Int
  fire_progress : ℚ

/-- `LoanPayoffResult` from models/projections.py.  `payoff_date` is a day
number. -/
structure LoanPayoffResult where
  account_id : Int
  account_name : String
  current_balance : ℚ
  interest_rate : ℚ
  monthly_payment : ℚ
  months_to_payoff : Int
  payoff_date : Int
  total_interest : ℚ

/-- `LoanPayoffResult.years_to_payoff`: Python `months_to_payoff // 12`
(floor division). -/
def LoanPayoffResult.years_to_payoff (r : LoanPayoffResult) : Int :=
  r.months_to_payoff.fdiv 12

/-- `LoanPayoffResult.remaining_months`: Python `months_to_payoff % 12`
(Python `%`, nonnegative for a positive modulus). -/
def LoanPayoffResult.remaining_months (r : LoanPayoffResult) : Int :=
  r.months_to_payoff.fmod 12

/-- The `for year in range(1, max_years + 1)` loop of `calculate_fire`
(services/calculations.py, lines 42-57 and the fall-through at 60-67).
`year` is the loop index, `fuel` the number of iterations left; the initial
call uses `year = 1` and `fuel = max_years`, matching `range(1, max_years+1)`.
Exhausted fuel is the "not achievable within max_years" return.  The Python
expression `float(current_investments / fire_number)` in the success branch
would raise `DivisionByZero` when `fire_number = 0` (reachable only with
`current_investments < 0`); in `ℚ` the same expression is `0`. -/
def fireLoop (fire_number current_investments annual_expenses annual_savings
    expected_return inflation_rate : ℚ) (todayYear : Int)
    (investments : ℚ) (year : ℕ) (fuel : ℕ) : FIREResult :=
  match fuel with
  | 0 =>
    { fire_number := fire_number
      current_investments := current_investments
      annual_expenses := annual_expenses
      years_to_fire := -1
      fire_year := -1
      fire_progress :=
        if fire_number > 0 then current_investments / fire_number else 0 }
  | fuel + 1 =>
    let investments := investments * (1 + expected_return) + annual_savings
    let adjusted_fire := fire_number * (1 + inflation_rate) ^ year
    if investments ≥ adjusted_fire then
      { fire_number := fire_number
        current_investments := current_investments
        annual_expenses := annual_expenses
        years_to_fire := (year : Int)
        fire_year := todayYear + (year : Int)
        fire_progress := min 1 (current_investments / fire_number) }
    else
      fireLoop fire_number current_investments annual_expenses annual_savings
        expected_return inflation_rate todayYear investments (year + 1) fuel

/-- `calculate_fire` from services/calculations.py (lines 10-67).  The float
default `0.04` substituted for a nonpositive withdrawal rate is the rational
`1/25` here; the substituted constant and any caller-passed `0.04` denote the
same value, so the comparison made by the code is unchanged. -/
def calculate_fire (current_investments annual_savings annual_expenses : ℚ)
    (expected_return withdrawal_rate inflation_rate : ℚ) (max_years : ℕ)
    (todayYear : Int) : FIREResult :=
  let withdrawal_rate := if withdrawal_rate ≤ 0 then (1 / 25 : ℚ) else withdrawal_rate
  let fire_number := annual_expenses / withdrawal_rate
  let investments := current_investments
  if investments ≥ fire_number then
    { fire_number := fire_number
      current_investments := current_investments
      annual_expenses := annual_expenses
      years_to_fire := 0
      fire_year := todayYear
      fire_progress := 1 }
  else
    fireLoop fire_number current_investments annual_expenses annual_savings
      expected_return inflation_rate todayYear investments 1 max_years

/-- The `while remaining > 0 and months < 360` loop of `calculate_loan_payoff`
(services/calculations.py, lines 101-120).  `fuel` is `360 - months`, so the
guard `months < 360` is exactly `fuel > 0`; the initial call uses
`months = 0`, `fuel = 360`.  `none` is the early `return` with the −1/−1
sentinel (payment does not cover interest); `some (remaining, months,
total_interest)` is the state on normal loop exit. -/
def payoffLoop (monthly_rate total_payment : ℚ) (remaining : ℚ) (months : ℕ)
    (total_interest : ℚ) (fuel : ℕ) : Option (ℚ × ℕ × ℚ) :=
  match fuel with
  | 0 => some (remaining, months, total_interest)
  | fuel + 1 =>
    if remaining > 0 then
      let interest := remaining * monthly_rate
      let total_interest := total_interest + interest
      let principal := total_payment - interest
      if principal ≤ 0 then
        none
      else
        payoffLoop monthly_rate total_payment (max 0 (remaining - principal))
          (months + 1) total_interest fuel
    else
      some (remaining, months, total_interest)

/-- `calculate_loan_payoff` from services/calculations.py (lines 70-133).
`monthly_rate = Decimal(annual_rate / 12)` converts a binary-float quotient in
the source; here the division is exact.  `payoff_date` is
`today + timedelta(days=months * 30)`, i.e. day-number arithmetic. -/
def calculate_loan_payoff (account_id : Int) (account_name : String)
    (balance : ℚ) (annual_rate : ℚ) (monthly_payment : ℚ) (extra_payment : ℚ)
    (today : Int) : LoanPayoffResult :=
  if balance ≤ 0 then
    { account_id := account_id
      account_name := account_name
      current_balance := balance
      interest_rate := annual_rate
      monthly_payment := monthly_payment
      months_to_payoff := 0
      payoff_date := today
      total_interest := 0 }
  else
    let monthly_rate := annual_rate / 12
    let total_payment := monthly_payment + extra_payment
    match payoffLoop monthly_rate total_payment balance 0 0 360 with
    | none =>
      { account_id := account_id
        account_name := account_name
        current_balance := balance
        interest_rate := annual_rate
        monthly_payment := monthly_payment
        months_to_payoff := -1
        payoff_date := today
        total_interest := -1 }
    | some (_, months, total_interest) =>
      { account_id := account_id
        account_name := account_name
        current_balance := balance
        interest_rate := annual_rate
        monthly_payment := monthly_payment
        months_to_payoff := (months : Int)
        payoff_date := today + (months : Int) * 30
        total_interest := total_interest }

/-- `UserSettings` from models/settings.py (the fields the projection engine
reads; the Lunch Money token, per-loan settings and currency are UI glue). -/
structure UserSettings where
  safe_withdrawal_rate : ℚ := 1 / 25
  expected_return : ℚ := 7 / 100
  inflation_rate : ℚ := 3 / 100
  projection_years : ℕ := 30

/-- The `for year in range(1, years + 1)` loop of `project_net_worth`
(services/calculations.py, lines 166-196).  `year` is the loop index, `fuel`
the number of iterations left; the initial call uses `year = 1`,
`fuel = years`.  `Decimal("0.1")` in the loan-decay line is the exact
rational `1/10`. -/
def projectLoop (snapshot : FinancialSnapshot)
    (expected_return annual_savings fire_number current_loans : ℚ)
    (todayYear : Int) (investments : ℚ) (year : ℕ) (fuel : ℕ) :
    List Projection :=
  match fuel with
  | 0 => []
  | fuel + 1 =>
    let investments := investments * (1 + expected_return) + annual_savings
    let loan_balance :=
      max 0 (current_loans - current_loans * (1 / 10) * (year : ℚ))
    let net_worth := investments + snapshot.cash + snapshot.real_estate +
      snapshot.crypto + snapshot.other_assets - loan_balance -
      snapshot.credit - snapshot.other_liabilities
    let fire_progress :=
      if fire_number > 0 then min 1 (investments / fire_number) else 0
    { year := todayYear + (year : Int)
      net_worth := net_worth
      investments := investments
      loan_balance := loan_balance
      fire_progress := fire_progress } ::
      projectLoop snapshot expected_return annual_savings fire_number
        current_loans todayYear investments (year + 1) fuel

/-- `project_net_worth` from services/calculations.py (lines 136-198).
`years = none` selects `settings.projection_years`, as in the source. -/
def project_net_worth (snapshot : FinancialSnapshot) (settings : UserSettings)
    (years : Option ℕ) (todayYear : Int) : List Projection :=
  let years := years.getD settings.projection_years
  let annual_savings := snapshot.monthly_savings * 12
  let annual_expenses := snapshot.monthly_expenses * 12
  let fire_number :=
    if settings.safe_withdrawal_rate > 0 then
      annual_expenses / settings.safe_withdrawal_rate
    else 0
  let current_loans := snapshot.loans
  projectLoop snapshot settings.expected_return annual_savings fire_number
    current_loans todayYear snapshot.investments 1 years

/-- `AccountType` from models/accounts.py. -/
inductive AccountType where
  | cash
  | investment
  | loan
  | real_estate
  | crypto
  | credit
  | vehicle
  | other_asset
  | other_liability
deriving DecidableEq

/-- `Account` from models/accounts.py (the fields `build_snapshot` reads;
`subtype`, `currency`, `institution` and `source` are pass-through strings). -/
structure Account where
  id : Int
  name : String
  type : AccountType
  balance : ℚ

/-- `Transaction` from models/accounts.py (the fields `build_snapshot` reads).
`date` is a day number. -/
structure Transaction where
  id : Int
  date : Int
  amount : ℚ
  is_income : Bool

/-- `Transaction.is_expense = not is_income`. -/
def Transaction.is_expense (t : Transaction) : Bool := !t.is_income

/-- `sum(a.balance for a in accounts if a.type == t)`. -/
def typeTotal (accounts : List Account) (t : AccountType) : ℚ :=
  ((accounts.filter fun a => a.type == t).map Account.balance).sum

/-- `LunchMoneyService.build_snapshot` from services/lunch_money.py
(lines 146-202), with the already-fetched accounts and transactions passed in
(the HTTP fetching is the excluded collaborator).  `today` is the day number
of `date.today()`.  The elapsed-months figure
`max(1, (date.today() - min(t.date ...)).days / 30)` is a float in the
source; here the division is exact. -/
def build_snapshot (accounts : List Account) (transactions : List Transaction)
    (today : Int) : FinancialSnapshot :=
  let investments := typeTotal accounts AccountType.investment
  let cash := typeTotal accounts AccountType.cash
  let real_estate := typeTotal accounts AccountType.real_estate
  let crypto := typeTotal accounts AccountType.crypto
  let other_assets :=
    ((accounts.filter fun a =>
        a.type == AccountType.vehicle || a.type == AccountType.other_asset).map
      Account.balance).sum
  let loans := typeTotal accounts AccountType.loan
  let credit := typeTotal accounts AccountType.credit
  let other_liabilities := typeTotal accounts AccountType.other_liability
  let total_assets := investments + cash + real_estate + crypto + other_assets
  let total_liabilities := loans + credit + other_liabilities
  let net_worth := total_assets - total_liabilities
  let monthly : ℚ × ℚ :=
    match transactions with
    | [] => (0, 0)
    | t0 :: _ =>
      let income_txns := transactions.filter fun t => t.is_income
      let expense_txns := transactions.filter fun t => t.is_expense
      let earliest := (transactions.map Transaction.date).foldl min t0.date
      let months : ℚ := max 1 (((today - earliest : Int) : ℚ) / 30)
      (abs ((income_txns.map Transaction.amount).sum) / months,
        abs ((expense_txns.map Transaction.amount).sum) / months)
  let monthly_income := monthly.1
  let monthly_expenses := monthly.2
  let monthly_savings := monthly_income - monthly_expenses
  { snapshot_date := today
    net_worth := net_worth
    total_assets := total_assets
    total_liabilities := total_liabilities
    investments := investments
    cash := cash
    real_estate := real_estate
    crypto := crypto
    other_assets := other_assets
    loans := loans
    credit := credit
    other_liabilities := other_liabilities
    monthly_income := monthly_income
    monthly_expenses := monthly_expenses
    monthly_savings := monthly_savings }

/-- The exact rational value of the IEEE-754 binary64 double nearest to 0.07,
`5044031582654956 / 2^56`.  A Python float argument written `0.07` holds this
value, not `7/100`.  (The float sum `1 + expected_return` inside
`project_net_worth` is modelled as exact rational addition; actual binary64
addition would round the sum once more, moving the resulting drift from
`48000/2^56` to `28000/2^52` — on the same side of 131000, so no statement
below depends on that difference.  Python's 28-significant-digit `Decimal`
context likewise only truncates the drift's low digits.) -/
def float64_007 : ℚ := 5044031582654956 / 72057594037927936

/-- The snapshot of the worked projection example: investments 100000,
monthly savings 2000, everything else zero. -/
def exampleSnapshot : FinancialSnapshot :=
  { snapshot_date := 0
    net_worth := 0
    total_assets := 0
    total_liabilities := 0
    investments := 100000
    monthly_savings := 2000 }

/-- Settings for the worked projection example: expected return `0.07` (the
binary64 value the float argument holds), defaults otherwise. -/
def exampleSettings : UserSettings := { expected_return := float64_007 }

/-- A snapshot whose monthly expenses exceed monthly income: the projected
investment balance goes negative in year one. -/
def deficitSnapshot : FinancialSnapshot :=
  { snapshot_date := 0
    net_worth := 0
    total_assets := 0
    total_liabilities := 0
    investments := 0
    monthly_expenses := 1000
    monthly_savings := -1000 }

/-- The default settings: withdrawal rate 0.04, expected return 0.07,
inflation 0.03, horizon 30 years. -/
def defaultSettings : UserSettings := {}

/-! ## Helper lemmas -/

/-- Unfolding: the FIRE search loop always reports the precomputed FIRE
number, whichever exit it takes. -/
theorem fireLoop_fire_number (fn ci ae sav er infl : ℚ) (ty : Int) :
    ∀ (fuel : ℕ) (inv : ℚ) (year : ℕ),
      (fireLoop fn ci ae sav er infl ty inv year fuel).fire_number = fn := by
  intro fuel
  induction fuel with
  | zero => intro inv year; rfl
  | succ f ih =>
    intro inv year
    simp only [fireLoop]
    split
    · rfl
    · exact ih _ _

/-- Unfolding equation: the projection loop with no iterations left. -/
theorem projectLoop_zero (s : FinancialSnapshot) (er sav fn loans : ℚ)
    (ty : Int) (inv : ℚ) (year : ℕ) :
    projectLoop s er sav fn loans ty inv year 0 = [] := rfl

/-- Unfolding equation: one iteration of the projection loop. -/
theorem projectLoop_succ (s : FinancialSnapshot) (er sav fn loans : ℚ)
    (ty : Int) (inv : ℚ) (year fuel : ℕ) :
    projectLoop s er sav fn loans ty inv year (fuel + 1) =
      { year := ty + (year : Int)
        net_worth := inv * (1 + er) + sav + s.cash + s.real_estate + s.crypto +
          s.other_assets - max 0 (loans - loans * (1 / 10) * (year : ℚ)) -
          s.credit - s.other_liabilities
        investments := inv * (1 + er) + sav
        loan_balance := max 0 (loans - loans * (1 / 10) * (year : ℚ))
        fire_progress :=
          if fn > 0 then min 1 ((inv * (1 + er) + sav) / fn) else 0 } ::
      projectLoop s er sav fn loans ty (inv * (1 + er) + sav) (year + 1) fuel :=
  rfl

/-- The projection loop emits one entry per remaining iteration. -/
theorem projectLoop_length (s : FinancialSnapshot) (er sav fn loans : ℚ)
    (ty : Int) : ∀ (fuel : ℕ) (inv : ℚ) (year : ℕ),
    (projectLoop s er sav fn loans ty inv year fuel).length = fuel := by
  intro fuel
  induction fuel with
  | zero => intro inv year; rfl
  | succ f ih =>
    intro inv year
    rw [projectLoop_succ]
    simp [ih]

/-- Entry `i` of the projection loop started at loop index `year` is labeled
with calendar year `ty + year + i`. -/
theorem projectLoop_year (s : FinancialSnapshot) (er sav fn loans : ℚ)
    (ty : Int) : ∀ (fuel : ℕ) (inv : ℚ) (year : ℕ) (i : ℕ), i < fuel →
    ((projectLoop s er sav fn loans ty inv year fuel).get? i).map
        Projection.year = some (ty + (year : Int) + (i : Int)) := by
  intro fuel
  induction fuel with
  | zero => intro inv year i h; omega
  | succ f ih =>
    intro inv year i h
    match i with
    | 0 => simp [projectLoop_succ]
    | i + 1 =>
      rw [projectLoop_succ]
      simp only [List.get?_cons_succ]
      rw [ih (inv * (1 + er) + sav) (year + 1) i (by omega)]
      congr 1
      push_cast
      ring

/-- Every entry the projection loop emits has FIRE progress at most 1. -/
theorem projectLoop_progress_le_one (s : FinancialSnapshot)
    (er sav fn loans : ℚ) (ty : Int) : ∀ (fuel : ℕ) (inv : ℚ) (year : ℕ),
    ∀ p ∈ projectLoop s er sav fn loans ty inv year fuel,
      p.fire_progress ≤ 1 := by
  intro fuel
  induction fuel with
  | zero => intro inv year p hp; exact absurd hp (by simp [projectLoop_zero])
  | succ f ih =>
    intro inv year p hp
    rw [projectLoop_succ, List.mem_cons] at hp
    rcases hp with hp | hp
    · rw [hp]
      show (if fn > 0 then min 1 ((inv * (1 + er) + sav) / fn) else 0) ≤ 1
      split
      · exact min_le_left _ _
      · exact zero_le_one
    · exact ih _ _ p hp

/-- If the total payment does not exceed the interest accrued by the current
balance in one month, the amortization loop aborts with the sentinel on its
first iteration, whatever fuel remains. -/
theorem payoffLoop_insufficient (mr tp rem : ℚ) (m : ℕ) (ti : ℚ)
    (hrem : 0 < rem) (hp : tp ≤ rem * mr) :
    ∀ fuel : ℕ, payoffLoop mr tp rem m ti (fuel + 1) = none := by
  intro fuel
  simp only [payoffLoop]
  rw [if_pos hrem, if_pos (sub_nonpos.mpr hp)]

/-- On normal exit the amortization loop has consumed at most its fuel, and
if the remaining balance is still positive it has consumed all of it (the
360-month cap). -/
theorem payoffLoop_bound (mr tp : ℚ) :
    ∀ (fuel : ℕ) (rem : ℚ) (m : ℕ) (ti rem' : ℚ) (m' : ℕ) (ti' : ℚ),
    payoffLoop mr tp rem m ti fuel = some (rem', m', ti') →
      m' ≤ m + fuel ∧ (0 < rem' → m' = m + fuel) := by
  intro fuel
  induction fuel with
  | zero =>
    intro rem m ti rem' m' ti' h
    simp only [payoffLoop, Option.some.injEq, Prod.mk.injEq] at h
    obtain ⟨h1, h2, h3⟩ := h
    constructor
    · omega
    · intro hpos
      omega
  | succ f ih =>
    intro rem m ti rem' m' ti' h
    simp only [payoffLoop] at h
    by_cases hrem : 0 < rem
    · rw [if_pos hrem] at h
      by_cases hpr : tp - rem * mr ≤ 0
      · rw [if_pos hpr] at h
        exact absurd h (by simp)
      · rw [if_neg hpr] at h
        obtain ⟨h1, h2⟩ := ih _ _ _ _ _ _ h
        constructor
        · omega
        · intro hpos
          have := h2 hpos
          omega
    · rw [if_neg hrem] at h
      simp only [Option.some.injEq, Prod.mk.injEq] at h
      obtain ⟨h1, h2, h3⟩ := h
      constructor
      · omega
      · intro hpos
        rw [← h1] at hpos
        exact absurd hpos hrem

/-- With a positive balance and a total payment that does not cover the first
month's interest, `calculate_loan_payoff` returns the full sentinel record. -/
theorem loan_payoff_insufficient_eq (aid : Int) (an : String)
    (balance annual_rate mp ep : ℚ) (today : Int) (hb : 0 < balance)
    (hp : mp + ep ≤ balance * annual_rate / 12) :
    calculate_loan_payoff aid an balance annual_rate mp ep today =
      { account_id := aid
        account_name := an
        current_balance := balance
        interest_rate := annual_rate
        monthly_payment := mp
        months_to_payoff := -1
        payoff_date := today
        total_interest := -1 } := by
  have hp' : mp + ep ≤ balance * (annual_rate / 12) := by
    rwa [← mul_div_assoc]
  have hnone := payoffLoop_insufficient (annual_rate / 12) (mp + ep) balance
    0 0 hb hp' 359
  simp only [calculate_loan_payoff]
  rw [if_neg (not_le.mpr hb)]
  rw [show (360 : ℕ) = 359 + 1 from rfl, hnone]

/-- With a positive balance, a sentinel exit of the amortization loop yields
the −1/−1 record. -/
theorem loan_payoff_eq_of_none (aid : Int) (an : String)
    (balance annual_rate mp ep : ℚ) (today : Int) (hb : 0 < balance)
    (h : payoffLoop (annual_rate / 12) (mp + ep) balance 0 0 360 = none) :
    calculate_loan_payoff aid an balance annual_rate mp ep today =
      { account_id := aid
        account_name := an
        current_balance := balance
        interest_rate := annual_rate
        monthly_payment := mp
        months_to_payoff := -1
        payoff_date := today
        total_interest := -1 } := by
  simp only [calculate_loan_payoff]
  rw [if_neg (not_le.mpr hb), h]

/-- With a positive balance, a normal exit of the amortization loop yields the
record built from the loop's final month count and accumulated interest. -/
theorem loan_payoff_eq_of_some (aid : Int) (an : String)
    (balance annual_rate mp ep : ℚ) (today : Int) (rem : ℚ) (m : ℕ) (ti : ℚ)
    (hb : 0 < balance)
    (h : payoffLoop (annual_rate / 12) (mp + ep) balance 0 0 360 =
      some (rem, m, ti)) :
    calculate_loan_payoff aid an balance annual_rate mp ep today =
      { account_id := aid
        account_name := an
        current_balance := balance
        interest_rate := annual_rate
        monthly_payment := mp
        months_to_payoff := (m : Int)
        payoff_date := today + (m : Int) * 30
        total_interest := ti } := by
  simp only [calculate_loan_payoff]
  rw [if_neg (not_le.mpr hb), h]

/-- Splitting the vehicle-or-other-asset balance sum of `build_snapshot` into
the two per-category sums. -/
theorem other_assets_split (accounts : List Account) :
    ((accounts.filter fun a =>
        a.type == AccountType.vehicle || a.type == AccountType.other_asset).map
      Account.balance).sum =
      typeTotal accounts AccountType.vehicle +
        typeTotal accounts AccountType.other_asset := by
  induction accounts with
  | nil => simp [typeTotal]
  | cons a as ih =>
    rcases htype : a.type <;>
      simp [typeTotal, List.filter_cons, htype, ih] <;>
      ring

/-! ## Claims -/

/-- C1, counterexample: at `annual_expenses = 0` with `current_investments =
0 ≥ 0` (and the default parameters), `calculate_fire` reports `fire_progress
= 1.0` — the already-FIRE short-circuit — not `0.0` as the claim states. -/
theorem fire_zero_expenses_counterexample :
    (calculate_fire 0 0 0 (7 / 100) (1 / 25) (3 / 100) 50 2025).fire_progress
        = 1 ∧
    ¬ (calculate_fire 0 0 0 (7 / 100) (1 / 25) (3 / 100) 50 2025).fire_progress
        = 0 := by
  constructor <;> norm_num [calculate_fire]

/-- C1, amended: for every call of `calculate_fire` with `annual_expenses =
0` and `current_investments ≥ 0`, the result has `fire_number = 0` and, via
the already-FIRE short-circuit, `years_to_fire = 0` and `fire_progress =
1.0` — with no NaN or error (the zero FIRE number is never divided by). -/
theorem fire_zero_expenses_amended (ci sav er wr infl : ℚ) (my : ℕ) (ty : Int)
    (hci : 0 ≤ ci) :
    (calculate_fire ci sav 0 er wr infl my ty).fire_number = 0 ∧
    (calculate_fire ci sav 0 er wr infl my ty).years_to_fire = 0 ∧
    (calculate_fire ci sav 0 er wr infl my ty).fire_progress = 1 := by
  simp only [calculate_fire, zero_div]
  rw [if_pos (show ci ≥ 0 from hci)]
  exact ⟨rfl, rfl, rfl⟩

/-- C1, witness for the amended theorem at `current_investments = 5`. -/
theorem fire_zero_expenses_amended_witness :
    0 ≤ (5 : ℚ) ∧
    ((calculate_fire 5 0 0 (7 / 100) (1 / 25) (3 / 100) 50 2030).fire_number
        = 0 ∧
      (calculate_fire 5 0 0 (7 / 100) (1 / 25) (3 / 100) 50 2030).years_to_fire
        = 0 ∧
      (calculate_fire 5 0 0 (7 / 100) (1 / 25) (3 / 100) 50 2030).fire_progress
        = 1) :=
  ⟨by norm_num,
    fire_zero_expenses_amended 5 0 (7 / 100) (1 / 25) (3 / 100) 50 2030
      (by norm_num)⟩

/-- C4: whenever current investments already reach the FIRE number (computed
after the 0.04 substitution for a nonpositive withdrawal rate),
`calculate_fire` returns the already-FIRE record — `years_to_fire = 0`,
`fire_year` = the current calendar year, `fire_progress = 1.0` — for every
expected return, inflation rate, annual savings and `max_years`: the result
is the short-circuit record, so the simulation loop never runs. -/
theorem calculate_fire_already_fire (ci sav ae er wr infl : ℚ) (my : ℕ)
    (ty : Int) (h : ae / (if wr ≤ 0 then (1 / 25 : ℚ) else wr) ≤ ci) :
    calculate_fire ci sav ae er wr infl my ty =
      { fire_number := ae / (if wr ≤ 0 then (1 / 25 : ℚ) else wr)
        current_investments := ci
        annual_expenses := ae
        years_to_fire := 0
        fire_year := ty
        fire_progress := 1 } := by
  simp only [calculate_fire]
  rw [if_pos (show ci ≥ ae / (if wr ≤ 0 then (1 / 25 : ℚ) else wr) from h)]

/-- C4, witness: investments 100 against annual expenses 4 at withdrawal
rate 0.04 (FIRE number 100). -/
theorem calculate_fire_already_fire_witness :
    4 / (if (1 / 25 : ℚ) ≤ 0 then (1 / 25 : ℚ) else 1 / 25) ≤ 100 ∧
    calculate_fire 100 3 4 (7 / 100) (1 / 25) (3 / 100) 50 2026 =
      { fire_number := 4 / (if (1 / 25 : ℚ) ≤ 0 then (1 / 25 : ℚ) else 1 / 25)
        current_investments := 100
        annual_expenses := 4
        years_to_fire := 0
        fire_year := 2026
        fire_progress := 1 } :=
  ⟨by norm_num,
    calculate_fire_already_fire 100 3 4 (7 / 100) (1 / 25) (3 / 100) 50 2026
      (by norm_num)⟩

/-- C7: with a nonpositive withdrawal rate, `calculate_fire` behaves exactly
as the same call with withdrawal rate 0.04: the results coincide, and the
reported FIRE number is `annual_expenses / 0.04` — no division by zero
occurs. -/
theorem calculate_fire_default_withdrawal (ci sav ae er wr infl : ℚ)
    (my : ℕ) (ty : Int) (h : wr ≤ 0) :
    calculate_fire ci sav ae er wr infl my ty =
      calculate_fire ci sav ae er (1 / 25) infl my ty ∧
    (calculate_fire ci sav ae er wr infl my ty).fire_number =
      ae / (1 / 25 : ℚ) := by
  have hsub : (if wr ≤ 0 then (1 / 25 : ℚ) else wr) = 1 / 25 := if_pos h
  have hsub' : (if (1 / 25 : ℚ) ≤ 0 then (1 / 25 : ℚ) else 1 / 25) = 1 / 25 :=
    ite_self _
  constructor
  · simp only [calculate_fire, hsub, hsub']
  · simp only [calculate_fire, hsub]
    split
    · rfl
    · exact fireLoop_fire_number _ _ _ _ _ _ _ _ _ _

/-- C7, witness at withdrawal rate 0. -/
theorem calculate_fire_default_withdrawal_witness :
    (0 : ℚ) ≤ 0 ∧
    (calculate_fire 10 1 4 (7 / 100) 0 (3 / 100) 50 2025 =
        calculate_fire 10 1 4 (7 / 100) (1 / 25) (3 / 100) 50 2025 ∧
      (calculate_fire 10 1 4 (7 / 100) 0 (3 / 100) 50 2025).fire_number =
        4 / (1 / 25 : ℚ)) :=
  ⟨le_refl 0,
    calculate_fire_default_withdrawal 10 1 4 (7 / 100) 0 (3 / 100) 50 2025
      (le_refl 0)⟩

/-- C6: with a nonpositive balance, `calculate_loan_payoff` reports an
immediate payoff — 0 months, 0 total interest, payoff date today — whatever
the rate and payments. -/
theorem loan_payoff_zero_balance (aid : Int) (an : String)
    (balance annual_rate mp ep : ℚ) (today : Int) (hb : balance ≤ 0) :
    calculate_loan_payoff aid an balance annual_rate mp ep today =
      { account_id := aid
        account_name := an
        current_balance := balance
        interest_rate := annual_rate
        monthly_payment := mp
        months_to_payoff := 0
        payoff_date := today
        total_interest := 0 } := by
  simp only [calculate_loan_payoff]
  rw [if_pos hb]

/-- C6, witness at balance 0. -/
theorem loan_payoff_zero_balance_witness :
    (0 : ℚ) ≤ 0 ∧
    calculate_loan_payoff 3 "mortgage" 0 (5 / 100) 200 0 100 =
      { account_id := 3
        account_name := "mortgage"
        current_balance := 0
        interest_rate := 5 / 100
        monthly_payment := 200
        months_to_payoff := 0
        payoff_date := 100
        total_interest := 0 } :=
  ⟨le_refl 0,
    loan_payoff_zero_balance 3 "mortgage" 0 (5 / 100) 200 0 100 (le_refl 0)⟩

/-- C5: with a positive balance and a total payment not exceeding the first
month's interest `balance * annual_rate / 12`, `calculate_loan_payoff`
returns the sentinel pair `months_to_payoff = -1`, `total_interest = -1`;
the amortization loop aborts on its very first iteration (it returns `none`
whatever positive fuel it is given, so no further month is simulated). -/
theorem loan_payoff_insufficient_payment (aid : Int) (an : String)
    (balance annual_rate mp ep : ℚ) (today : Int) (hb : 0 < balance)
    (hp : mp + ep ≤ balance * annual_rate / 12) :
    (calculate_loan_payoff aid an balance annual_rate mp ep
        today).months_to_payoff = -1 ∧
    (calculate_loan_payoff aid an balance annual_rate mp ep
        today).total_interest = -1 ∧
    ∀ fuel : ℕ,
      payoffLoop (annual_rate / 12) (mp + ep) balance 0 0 (fuel + 1) = none := by
  have heq := loan_payoff_insufficient_eq aid an balance annual_rate mp ep
    today hb hp
  refine ⟨by rw [heq], by rw [heq], ?_⟩
  exact payoffLoop_insufficient _ _ _ _ _ hb (by rwa [← mul_div_assoc])

/-- C5, witness: balance 1000 at 12% yearly has 10 of first-month interest
against a total payment of 5. -/
theorem loan_payoff_insufficient_payment_witness :
    0 < (1000 : ℚ) ∧ (5 : ℚ) + 0 ≤ 1000 * (12 / 100) / 12 ∧
    ((calculate_loan_payoff 1 "studentloan" 1000 (12 / 100) 5 0
        0).months_to_payoff = -1 ∧
      (calculate_loan_payoff 1 "studentloan" 1000 (12 / 100) 5 0
        0).total_interest = -1 ∧
      ∀ fuel : ℕ,
        payoffLoop ((12 / 100 : ℚ) / 12) ((5 : ℚ) + 0) 1000 0 0 (fuel + 1) =
          none) :=
  ⟨by norm_num, by norm_num,
    loan_payoff_insufficient_payment 1 "studentloan" 1000 (12 / 100) 5 0 0
      (by norm_num) (by norm_num)⟩

/-- C9: for every call with a positive balance the amortization is bounded:
either the insufficient-payment sentinel pair is returned, or
`months_to_payoff` lies in `0..360` and agrees with the month count on which
the 360-iteration loop exited, the reported `total_interest` is the loop's
accumulated interest (not the sentinel), and if the loop exited with a still
positive remaining balance then `months_to_payoff = 360` — the cap was hit.
The loop is structurally recursive on its fuel, so the function terminates on
all inputs. -/
theorem loan_payoff_cap (aid : Int) (an : String)
    (balance annual_rate mp ep : ℚ) (today : Int) (hb : 0 < balance) :
    ((calculate_loan_payoff aid an balance annual_rate mp ep
        today).months_to_payoff = -1 ∧
      (calculate_loan_payoff aid an balance annual_rate mp ep
        today).total_interest = -1) ∨
    (0 ≤ (calculate_loan_payoff aid an balance annual_rate mp ep
        today).months_to_payoff ∧
      (calculate_loan_payoff aid an balance annual_rate mp ep
        today).months_to_payoff ≤ 360 ∧
      ∀ (rem : ℚ) (m : ℕ) (ti : ℚ),
        payoffLoop (annual_rate / 12) (mp + ep) balance 0 0 360 =
            some (rem, m, ti) →
          (calculate_loan_payoff aid an balance annual_rate mp ep
              today).months_to_payoff = (m : Int) ∧
          (calculate_loan_payoff aid an balance annual_rate mp ep
              today).total_interest = ti ∧
          (0 < rem → m = 360)) := by
  rcases hres : payoffLoop (annual_rate / 12) (mp + ep) balance 0 0 360 with
    _ | ⟨rem', m', ti'⟩
  · left
    rw [loan_payoff_eq_of_none aid an balance annual_rate mp ep today hb hres]
    exact ⟨rfl, rfl⟩
  · right
    rw [loan_payoff_eq_of_some aid an balance annual_rate mp ep today rem' m'
      ti' hb hres]
    obtain ⟨hle, hcap⟩ := payoffLoop_bound (annual_rate / 12) (mp + ep) 360
      balance 0 0 rem' m' ti' hres
    refine ⟨Int.natCast_nonneg m', ?_, ?_⟩
    · show (m' : Int) ≤ 360
      omega
    intro rem'' m'' ti'' heq
    simp only [Option.some.injEq, Prod.mk.injEq] at heq
    obtain ⟨h1, h2, h3⟩ := heq
    subst h1
    subst h2
    subst h3
    refine ⟨rfl, rfl, ?_⟩
    intro hpos
    have := hcap hpos
    omega

/-- C9, witness at balance 100 with zero rate and zero payment. -/
theorem loan_payoff_cap_witness :
    0 < (100 : ℚ) ∧
    (((calculate_loan_payoff 4 "autoloan" 100 0 0 0 7).months_to_payoff = -1 ∧
       (calculate_loan_payoff 4 "autoloan" 100 0 0 0 7).total_interest = -1) ∨
     (0 ≤ (calculate_loan_payoff 4 "autoloan" 100 0 0 0 7).months_to_payoff ∧
       (calculate_loan_payoff 4 "autoloan" 100 0 0 0 7).months_to_payoff
         ≤ 360 ∧
       ∀ (rem : ℚ) (m : ℕ) (ti : ℚ),
         payoffLoop ((0 : ℚ) / 12) ((0 : ℚ) + 0) 100 0 0 360 =
             some (rem, m, ti) →
           (calculate_loan_payoff 4 "autoloan" 100 0 0 0 7).months_to_payoff
             = (m : Int) ∧
           (calculate_loan_payoff 4 "autoloan" 100 0 0 0 7).total_interest
             = ti ∧
           (0 < rem → m = 360))) :=
  ⟨by norm_num, loan_payoff_cap 4 "autoloan" 100 0 0 0 7 (by norm_num)⟩

/-- C10: any `LoanPayoffResult` carrying the non-payoff sentinel
`months_to_payoff = -1` evaluates its derived properties under Python's
floor-division semantics to `years_to_payoff = -1 // 12 = -1` and
`remaining_months = -1 % 12 = 11`: a caller reading the derived fields
without checking the sentinel sees 11 remaining months for a loan that never
pays off. -/
theorem loan_sentinel_derived_fields (r : LoanPayoffResult)
    (h : r.months_to_payoff = -1) :
    r.years_to_payoff = -1 ∧ r.remaining_months = 11 := by
  unfold LoanPayoffResult.years_to_payoff LoanPayoffResult.remaining_months
  rw [h]
  exact ⟨by decide, by decide⟩

/-- C10, witness: a concrete sentinel result produced by
`calculate_loan_payoff` (balance 500 at 24% yearly against payment 1). -/
theorem loan_sentinel_derived_fields_witness :
    (calculate_loan_payoff 2 "creditcard" 500 (24 / 100) 1 0
        0).months_to_payoff = -1 ∧
    ((calculate_loan_payoff 2 "creditcard" 500 (24 / 100) 1 0
        0).years_to_payoff = -1 ∧
      (calculate_loan_payoff 2 "creditcard" 500 (24 / 100) 1 0
        0).remaining_months = 11) := by
  have hm : (calculate_loan_payoff 2 "creditcard" 500 (24 / 100) 1 0
      0).months_to_payoff = -1 := by
    rw [loan_payoff_insufficient_eq 2 "creditcard" 500 (24 / 100) 1 0 0
      (by norm_num) (by norm_num)]
  exact ⟨hm, loan_sentinel_derived_fields _ hm⟩

/-- C8: for every account list (every partition of accounts across the nine
categories, vehicle balances counted into `other_assets`), every transaction
list and every as-of date, the snapshot built by the aggregator satisfies the
rollup invariants exactly: `total_assets` is the sum of the five asset
subtotals, `total_liabilities` the sum of the three liability subtotals,
`net_worth = total_assets - total_liabilities`, and `monthly_savings =
monthly_income - monthly_expenses`, all in exact (rational) arithmetic. -/
theorem build_snapshot_invariants (accounts : List Account)
    (transactions : List Transaction) (today : Int) :
    (build_snapshot accounts transactions today).total_assets =
      (build_snapshot accounts transactions today).investments +
      (build_snapshot accounts transactions today).cash +
      (build_snapshot accounts transactions today).real_estate +
      (build_snapshot accounts transactions today).crypto +
      (build_snapshot accounts transactions today).other_assets ∧
    (build_snapshot accounts transactions today).other_assets =
      typeTotal accounts AccountType.vehicle +
      typeTotal accounts AccountType.other_asset ∧
    (build_snapshot accounts transactions today).total_liabilities =
      (build_snapshot accounts transactions today).loans +
      (build_snapshot accounts transactions today).credit +
      (build_snapshot accounts transactions today).other_liabilities ∧
    (build_snapshot accounts transactions today).net_worth =
      (build_snapshot accounts transactions today).total_assets -
      (build_snapshot accounts transactions today).total_liabilities ∧
    (build_snapshot accounts transactions today).monthly_savings =
      (build_snapshot accounts transactions today).monthly_income -
      (build_snapshot accounts transactions today).monthly_expenses :=
  ⟨rfl, other_assets_split accounts, rfl, rfl, rfl⟩

/-- C2, counterexample: on the snapshot with investments 100000 and monthly
savings 2000, with expected return `0.07` (the binary64 value the float
argument holds) and a one-year horizon, the projected investment balance is
not exactly 131000: the growth factor `Decimal(1 + expected_return)` is
seeded from a binary float, so the product drifts above 131000. -/
theorem project_example_counterexample :
    ((project_net_worth exampleSnapshot exampleSettings (some 1) 2025).map
      Projection.investments) ≠ [(131000 : ℚ)] := by
  rw [show (1 : ℕ) = 0 + 1 from rfl]
  simp [project_net_worth, projectLoop_succ, projectLoop_zero,
    exampleSnapshot, exampleSettings, float64_007]
  norm_num

/-- C2, amended: with those inputs the projected investment balance is
`100000 * (1 + r) + 24000` where `r` is the binary64 value of 0.07 — the
per-year recurrence `investments * (1 + expected_return) + annual_savings`
with `annual_savings = monthly_savings * 12` is as claimed — and it exceeds
131000 by less than `10 ^ (-10)` instead of equalling it exactly. -/
theorem project_example_amended :
    ((project_net_worth exampleSnapshot exampleSettings (some 1) 2025).map
        Projection.investments) = [100000 * (1 + float64_007) + 24000] ∧
    (131000 : ℚ) < 100000 * (1 + float64_007) + 24000 ∧
    100000 * (1 + float64_007) + 24000 < 131000 + 1 / 10 ^ 10 := by
  refine ⟨?_, by norm_num [float64_007], by norm_num [float64_007]⟩
  rw [show (1 : ℕ) = 0 + 1 from rfl]
  simp [project_net_worth, projectLoop_succ, projectLoop_zero,
    exampleSnapshot, exampleSettings]
  norm_num

/-- C3, counterexample: on a snapshot with negative monthly savings and
positive monthly expenses, the first projected year's `fire_progress` is
negative (`min(1.0, investments / fire_number)` with negative investments),
so it does not lie in the closed interval [0, 1]. -/
theorem project_progress_counterexample :
    ∃ p ∈ project_net_worth deficitSnapshot defaultSettings (some 1) 2025,
      p.fire_progress < 0 := by
  rw [show (1 : ℕ) = 0 + 1 from rfl]
  simp [project_net_worth, projectLoop_succ, projectLoop_zero,
    deficitSnapshot, defaultSettings, min_def]
  norm_num

/-- C3, amended: for every snapshot and settings and every horizon `n ≥ 1`,
`project_net_worth` returns exactly `n` projections, entry `i` carries
calendar year `todayYear + 1 + i` (years strictly increase by 1 starting the
year after the current one), and every entry's `fire_progress` is at most 1.
The lower bound 0 of the claimed interval can fail (see the counterexample),
so only the upper clamp holds unconditionally. -/
theorem project_net_worth_shape (snapshot : FinancialSnapshot)
    (settings : UserSettings) (n : ℕ) (ty : Int) (hn : 1 ≤ n) :
    (project_net_worth snapshot settings (some n) ty).length = n ∧
    (∀ i : ℕ, i < n →
      ((project_net_worth snapshot settings (some n) ty).get? i).map
        Projection.year = some (ty + 1 + (i : Int))) ∧
    ∀ p ∈ project_net_worth snapshot settings (some n) ty,
      p.fire_progress ≤ 1 := by
  refine ⟨?_, ?_, ?_⟩
  · simp [project_net_worth, projectLoop_length]
  · intro i hi
    have hy := projectLoop_year snapshot settings.expected_return
      (snapshot.monthly_savings * 12)
      (if settings.safe_withdrawal_rate > 0 then
        snapshot.monthly_expenses * 12 / settings.safe_withdrawal_rate
      else 0)
      snapshot.loans ty n snapshot.investments 1 i hi
    simp only [project_net_worth, Option.getD_some]
    rw [hy]
    norm_num
  · intro p hp
    refine projectLoop_progress_le_one snapshot settings.expected_return
      (snapshot.monthly_savings * 12)
      (if settings.safe_withdrawal_rate > 0 then
        snapshot.monthly_expenses * 12 / settings.safe_withdrawal_rate
      else 0)
      snapshot.loans ty n snapshot.investments 1 p ?_
    simpa [project_net_worth] using hp

/-- C3, witness for the amended theorem at a three-year horizon. -/
theorem project_net_worth_shape_witness :
    1 ≤ 3 ∧
    ((project_net_worth deficitSnapshot defaultSettings (some 3) 2025).length
        = 3 ∧
      (∀ i : ℕ, i < 3 →
        ((project_net_worth deficitSnapshot defaultSettings (some 3)
            2025).get? i).map Projection.year = some (2025 + 1 + (i : Int))) ∧
      ∀ p ∈ project_net_worth deficitSnapshot defaultSettings (some 3) 2025,
        p.fire_progress ≤ 1) :=
  ⟨by norm_num,
    project_net_worth_shape deficitSnapshot defaultSettings 3 2025
      (by norm_num)⟩

end NetWorthLab
